import Mathlib

/-!
Shallow embedding of the device-mutation reconciliation engine of
`packages/api/lib/controllers/boxesController.js` (PostgreSQL code path):
`updateBox`, `updateSensor` and `postNewBox`, running against a model of the
transactional store reached through `db.query` (`BEGIN` / parameterized
DML / `COMMIT` / `ROLLBACK`).

JavaScript values that flow through the engine are modelled by `JsVal`
(undefined, null, booleans, strings, numbers) so that the truthiness tests
of the source (`if (element)`, `if (deleted)`, `edited && isNew`,
`title !== undefined`, `x || fallback`) can be rendered exactly.

The store is a pair of tables (devices, sensors); each row is an association
list from column name to value.  A transaction is modelled by the pair of a
committed store and the current working store: `BEGIN` snapshots the
committed store, DML acts on the working store, `COMMIT` publishes it and
`ROLLBACK` discards it.  DML follows SQL semantics: an UPDATE or DELETE that
matches zero rows succeeds with no effect; an INSERT whose `id` collides
with an existing row fails with a unique-constraint violation.
-/

inductive JsVal where
  | undef : JsVal
  | null : JsVal
  | bool : Bool → JsVal
  | str : String → JsVal
  | num : Int → JsVal
deriving DecidableEq, Repr

/-- JavaScript truthiness, as used by `if (element)` in the source. -/
def JsVal.truthy : JsVal → Bool
  | .undef => false
  | .null => false
  | .bool b => b
  | .str s => !s.isEmpty
  | .num n => n != 0

/-- JavaScript `a || b`: `a` when truthy, otherwise `b`. -/
def jsOr (a b : JsVal) : JsVal := if a.truthy then a else b

/-- String interpolation of a JavaScript value into SQL text. -/
def renderVal : JsVal → String
  | .undef => "undefined"
  | .null => "null"
  | .bool b => if b then "true" else "false"
  | .str s => s
  | .num n => toString n

/-- A row: column name to value, as produced by a parameterized statement. -/
abbrev Row := List (String × JsVal)

def getCol (r : Row) (k : String) : JsVal :=
  match r.find? (fun kv => kv.1 == k) with
  | some kv => kv.2
  | none => .undef

def setCol (r : Row) (k : String) (v : JsVal) : Row :=
  if r.any (fun kv => kv.1 == k) then
    r.map (fun kv => if kv.1 == k then (k, v) else kv)
  else
    r ++ [(k, v)]

/-- Apply a SET list (column, bound value) to a row, leftmost first. -/
def applySets (r : Row) (sets : List (String × JsVal)) : Row :=
  sets.foldl (fun acc kv => setCol acc kv.1 kv.2) r

/-- SQL equality of a row id against a bound parameter: comparison with a
bound `NULL` (JavaScript `undefined` or `null`) never matches. -/
def sqlMatches (rowId v : JsVal) : Bool :=
  match v with
  | .undef => false
  | .null => false
  | _ => rowId == v

/-- The relational store: the `"Device"` and `"Sensor"` tables. -/
structure Store where
  devices : List Row
  sensors : List Row
deriving DecidableEq, Repr

/-- The store collaborator: committed state plus the working state of the
currently open transaction. -/
structure DB where
  committed : Store
  current : Store
deriving DecidableEq, Repr

/-- Errors surfaced by the engine or by statement execution. -/
inductive EngErr where
  /-- The `Invalid operation for sensor with id ...` error thrown by the final else -/
  | invalidOp (id : JsVal) : EngErr
  /-- TypeError raised by iterating `for ... of undefined` -/
  | notIterable : EngErr
  /-- unique-constraint violation reported by the store on INSERT -/
  | uniqueViolation (id : JsVal) : EngErr
deriving DecidableEq, Repr

/-- The message carried by the error, as built in the source. -/
def EngErr.message : EngErr → String
  | .invalidOp id => "Invalid operation for sensor with id " ++ renderVal id
  | .notIterable => "sensorData is not iterable"
  | .uniqueViolation id => "duplicate key value violates unique constraint: " ++ renderVal id

/-- One parameterized statement issued through `db.query`. -/
inductive Stmt where
  | beginTx : Stmt
  | commitTx : Stmt
  | rollbackTx : Stmt
  /-- Statement `UPDATE "Device" SET ... WHERE "id" = $1` -/
  | updateDevice (id : String) (sets : List (String × JsVal)) : Stmt
  /-- Statement `INSERT INTO "Device" (...) VALUES (...)` -/
  | insertDevice (row : Row) : Stmt
  /-- Statement `DELETE FROM "Sensor" WHERE "id" = $1` -/
  | deleteSensor (id : JsVal) : Stmt
  /-- Statement `INSERT INTO "Sensor" (...) VALUES (...)` -/
  | insertSensor (row : Row) : Stmt
  /-- Statement `UPDATE "Sensor" SET ... WHERE "id" = $n` -/
  | updSensor (id : JsVal) (sets : List (String × JsVal)) : Stmt
deriving DecidableEq, Repr

/-- Execute one DML statement against the working store.  Zero-row UPDATE or
DELETE succeeds (the engine never inspects `rowCount`); INSERT fails on a
duplicate `id`. -/
def execDml : Stmt → Store → Except EngErr Store
  | .beginTx, st => .ok st
  | .commitTx, st => .ok st
  | .rollbackTx, st => .ok st
  | .updateDevice i sets, st =>
      .ok { st with devices :=
        st.devices.map (fun r => if getCol r "id" == .str i then applySets r sets else r) }
  | .insertDevice row, st =>
      if st.devices.any (fun r => sqlMatches (getCol r "id") (getCol row "id")) then
        .error (.uniqueViolation (getCol row "id"))
      else
        .ok { st with devices := st.devices ++ [row] }
  | .deleteSensor v, st =>
      .ok { st with sensors := st.sensors.filter (fun r => !(sqlMatches (getCol r "id") v)) }
  | .insertSensor row, st =>
      if st.sensors.any (fun r => sqlMatches (getCol r "id") (getCol row "id")) then
        .error (.uniqueViolation (getCol row "id"))
      else
        .ok { st with sensors := st.sensors ++ [row] }
  | .updSensor v sets, st =>
      .ok { st with sensors :=
        st.sensors.map (fun r => if sqlMatches (getCol r "id") v then applySets r sets else r) }

/-- One element of the `sensors` array of an update request, with the three
intent flags.  The source destructures the `new` key as `isNew`. -/
structure SensorDescriptor where
  _id : JsVal
  title : JsVal
  unit : JsVal
  sensorType : JsVal
  status : JsVal
  icon : JsVal
  deleted : JsVal
  edited : JsVal
  isNew : JsVal
deriving DecidableEq, Repr

/-- The request body consumed by `updateBox` (the fields it reads). -/
structure ReqBody where
  name : JsVal
  description : JsVal
  exposure : JsVal
  model : JsVal
  status : JsVal
  /-- Field `req.body.location`, carrying `lat` and `lng` when present -/
  location : Option (JsVal × JsVal)
  user_id : JsVal
  /-- Field `req.body.sensors`; `none` when the key is absent -/
  sensors : Option (List SensorDescriptor)
deriving DecidableEq, Repr

/-- The `updatedDevice` object literal of `updateBox`, in source order.
`useAuth` and `public` are the literals `true`; `updatedAt` is the fresh
timestamp `now`. -/
def updatedDeviceFields (body : ReqBody) (now : String) : List (String × JsVal) :=
  [("name", body.name),
   ("updatedAt", .str now),
   ("description", body.description),
   ("exposure", body.exposure),
   ("useAuth", .bool true),
   ("model", body.model),
   ("public", .bool true),
   ("status", body.status),
   ("latitude", match body.location with | some l => l.1 | none => .undef),
   ("longitude", match body.location with | some l => l.2 | none => .undef),
   ("userId", body.user_id)]

/-- The SET column list of the generated device UPDATE: the `for (const key
in updatedDevice)` loop keeps exactly the truthy entries, in order. -/
def deviceSetFragments (body : ReqBody) (now : String) : List (String × JsVal) :=
  (updatedDeviceFields body now).filter (fun kv => kv.2.truthy)

/-- One `"key" = value` fragment (value single-quoted) as interpolated into the SQL text. -/
def fragStr (kv : String × JsVal) : String :=
  "\"" ++ kv.1 ++ "\" = " ++ "\x27" ++ renderVal kv.2 ++ "\x27"

/-- The `setStatement` string as built by the loop: truthy fields appended
with a trailing comma, the final comma stripped. -/
def setStatement (fields : List (String × JsVal)) : String :=
  let s := fields.foldl (fun acc kv => if kv.2.truthy then acc ++ fragStr kv ++ "," else acc) ""
  if s.endsWith "," then s.dropRight 1 else s

/-- Row inserted for a Create-classified descriptor (`edited && isNew`):
`INSERT INTO "Sensor" ("id","title","unit","sensorType","status","icon",
"updatedAt","deviceId")` with no validation of the bound values. -/
def newSensorRow (boxId now : String) (d : SensorDescriptor) : Row :=
  [("id", d._id), ("title", d.title), ("unit", d.unit), ("sensorType", d.sensorType),
   ("status", d.status), ("icon", d.icon), ("updatedAt", .str now), ("deviceId", .str boxId)]

/-- SET list of the sparse sensor UPDATE: a column is included exactly when
its descriptor field is not `undefined`; `updatedAt` is always appended. -/
def sensorUpdateSets (now : String) (d : SensorDescriptor) : List (String × JsVal) :=
  (if d.title ≠ JsVal.undef then [("title", d.title)] else []) ++
  (if d.unit ≠ JsVal.undef then [("unit", d.unit)] else []) ++
  (if d.sensorType ≠ JsVal.undef then [("sensorType", d.sensorType)] else []) ++
  (if d.status ≠ JsVal.undef then [("status", d.status)] else []) ++
  (if d.icon ≠ JsVal.undef then [("icon", d.icon)] else []) ++
  [("updatedAt", .str now)]

/-- The branch chain of the `updateSensor` loop body: classify one descriptor
and produce the single statement to execute, or the `Invalid operation`
error of the final `else`. -/
def sensorStmt (boxId now : String) (d : SensorDescriptor) : Except EngErr Stmt :=
  if d.deleted.truthy then
    .ok (.deleteSensor d._id)
  else if d.edited.truthy && d.isNew.truthy then
    .ok (.insertSensor (newSensorRow boxId now d))
  else if d.edited.truthy && !d.deleted.truthy then
    .ok (.updSensor d._id (sensorUpdateSets now d))
  else
    .error (.invalidOp d._id)

/-- The `for ... of sensorData` loop: process descriptors in order,
executing each classified statement; a classification error or a statement
failure stops the loop.  Returns the successfully executed statements and
the resulting working store (or the first error). -/
def updateSensorGo (boxId now : String) :
    List SensorDescriptor → Store → List Stmt × Except EngErr Store
  | [], st => ([], .ok st)
  | d :: ds, st =>
    match sensorStmt boxId now d with
    | .error e => ([], .error e)
    | .ok stmt =>
      match execDml stmt st with
      | .error e => ([], .error e)
      | .ok st1 =>
        (stmt :: (updateSensorGo boxId now ds st1).1, (updateSensorGo boxId now ds st1).2)

/-- Function `updateSensor(sensorData, boxId)`: iterating over an absent `sensors`
value throws (`undefined` is not iterable) before touching the store. -/
def updateSensor (sensorData : Option (List SensorDescriptor)) (boxId now : String)
    (st : Store) : List Stmt × Except EngErr Store :=
  match sensorData with
  | none => ([], .error .notIterable)
  | some ds => updateSensorGo boxId now ds st

/-- Function `updateBox`: BEGIN, device UPDATE (its SET list is the truthy-filtered
field map), `updateSensor`, COMMIT; any error triggers ROLLBACK and
propagates.  Returns the executed statement trace, the resulting store
collaborator state and the outcome. -/
def updateBox (boxId : String) (body : ReqBody) (now : String) (db : DB) :
    List Stmt × DB × Except EngErr Unit :=
  let sets := deviceSetFragments body now
  let cur0 := db.committed
  match execDml (.updateDevice boxId sets) cur0 with
  | .error e => ([Stmt.beginTx, Stmt.rollbackTx], ⟨db.committed, db.committed⟩, .error e)
  | .ok cur1 =>
    match updateSensor body.sensors boxId now cur1 with
    | (slog, .error e) =>
        ([Stmt.beginTx, Stmt.updateDevice boxId sets] ++ slog ++ [Stmt.rollbackTx],
         ⟨db.committed, db.committed⟩, .error e)
    | (slog, .ok cur2) =>
        ([Stmt.beginTx, Stmt.updateDevice boxId sets] ++ slog ++ [Stmt.commitTx],
         ⟨cur2, cur2⟩, .ok ())

/-- One element of the `sensors` array of a creation request (the fields
`postNewBox` binds into the sensor INSERT). -/
structure NewSensorDef where
  id : JsVal
  title : JsVal
  unit : JsVal
  sensorType : JsVal
deriving DecidableEq, Repr

/-- The request body consumed by `postNewBox` (the fields it reads). -/
structure NewBoxBody where
  name : JsVal
  description : JsVal
  exposure : JsVal
  useAuth : JsVal
  model : JsVal
  public : JsVal
  status : JsVal
  /-- Fields `req.body.location.lat` and `.lng` -/
  lat : JsVal
  lng : JsVal
  /-- Field `req.body.sensors`; `none` when the key is absent -/
  sensors : Option (List NewSensorDef)
deriving DecidableEq, Repr

/-- The device row inserted by `postNewBox`: the ten mandatory columns bound
as `$1..$10`, then `description` and `model` appended only when the
defaulted `newDevice` value is not `null` (`x || null` yields `null` for
absent or falsy input). -/
def newDeviceRow (body : NewBoxBody) (newId userId now : String) : Row :=
  [("id", .str newId), ("name", body.name), ("exposure", body.exposure),
   ("useAuth", jsOr body.useAuth (.bool false)), ("public", jsOr body.public (.bool false)),
   ("status", jsOr body.status (.str "INACTIVE")), ("latitude", body.lat),
   ("longitude", body.lng), ("userId", .str userId), ("updatedAt", .str now)] ++
  (if jsOr body.description JsVal.null ≠ JsVal.null
     then [("description", jsOr body.description JsVal.null)] else []) ++
  (if jsOr body.model JsVal.null ≠ JsVal.null
     then [("model", jsOr body.model JsVal.null)] else [])

/-- The sensor row inserted for one definition: `("id","title","unit",
"sensorType","deviceId","updatedAt")` with `deviceId` the id returned by the
device INSERT. -/
def newSensorInsertRow (dn : NewSensorDef) (deviceId now : String) : Row :=
  [("id", dn.id), ("title", dn.title), ("unit", dn.unit), ("sensorType", dn.sensorType),
   ("deviceId", .str deviceId), ("updatedAt", .str now)]

/-- The `for (const sensorData of newDevice.sensors)` loop of `postNewBox`:
one INSERT per definition, in submission order, stopping at the first
failure. -/
def insertSensorsGo (deviceId now : String) :
    List NewSensorDef → Store → List Stmt × Except EngErr Store
  | [], st => ([], .ok st)
  | dn :: ds, st =>
    match execDml (Stmt.insertSensor (newSensorInsertRow dn deviceId now)) st with
    | .error e => ([], .error e)
    | .ok st1 =>
      (Stmt.insertSensor (newSensorInsertRow dn deviceId now) :: (insertSensorsGo deviceId now ds st1).1,
       (insertSensorsGo deviceId now ds st1).2)

/-- Function `postNewBox`: BEGIN, device INSERT (RETURNING the new id), one sensor
INSERT per definition, COMMIT and respond with the new id; any error
triggers ROLLBACK and propagates.  `newId` stands for the generated
`uuidv4()`, `userId` for `req.user.id`. -/
def postNewBox (body : NewBoxBody) (newId userId now : String) (db : DB) :
    List Stmt × DB × Except EngErr String :=
  let drow := newDeviceRow body newId userId now
  let cur0 := db.committed
  match execDml (.insertDevice drow) cur0 with
  | .error e => ([Stmt.beginTx, Stmt.rollbackTx], ⟨db.committed, db.committed⟩, .error e)
  | .ok cur1 =>
    match body.sensors with
    | none =>
        ([Stmt.beginTx, Stmt.insertDevice drow, Stmt.rollbackTx],
         ⟨db.committed, db.committed⟩, .error .notIterable)
    | some ds =>
      match insertSensorsGo newId now ds cur1 with
      | (slog, .error e) =>
          ([Stmt.beginTx, Stmt.insertDevice drow] ++ slog ++ [Stmt.rollbackTx],
           ⟨db.committed, db.committed⟩, .error e)
      | (slog, .ok cur2) =>
          ([Stmt.beginTx, Stmt.insertDevice drow] ++ slog ++ [Stmt.commitTx],
           ⟨cur2, cur2⟩, .ok newId)

/-- The working store after the device UPDATE of `updateBox` (that UPDATE
always succeeds: zero matched rows are not an error). -/
def afterDeviceUpdate (boxId : String) (sets : List (String × JsVal)) (st : Store) : Store :=
  { st with devices :=
      st.devices.map (fun r => if getCol r "id" == .str boxId then applySets r sets else r) }

/-- A sensor descriptor with every field absent, for building fixtures. -/
def descr0 : SensorDescriptor :=
  ⟨JsVal.undef, JsVal.undef, JsVal.undef, JsVal.undef, JsVal.undef,
   JsVal.undef, JsVal.undef, JsVal.undef, JsVal.undef⟩

/-- An update-request body with every field absent and no `sensors` key. -/
def reqBody0 : ReqBody :=
  { name := JsVal.undef, description := JsVal.undef, exposure := JsVal.undef,
    model := JsVal.undef, status := JsVal.undef, location := none,
    user_id := JsVal.undef, sensors := none }

/-- A store holding one device `box-1` and one sensor `s1`. -/
def store0 : Store :=
  { devices := [[("id", JsVal.str "box-1"), ("name", JsVal.str "Box One")]],
    sensors := [[("id", JsVal.str "s1"), ("title", JsVal.str "Temperature"),
                 ("deviceId", JsVal.str "box-1")]] }

/-- An idle store collaborator over `store0` (no open transaction). -/
def db0 : DB := ⟨store0, store0⟩

/-- An idle store collaborator over the empty store. -/
def dbEmpty : DB := ⟨⟨[], []⟩, ⟨[], []⟩⟩

/-- Descriptor deleting sensor `s1` (all three flags present and truthy). -/
def dDelS1 : SensorDescriptor :=
  { descr0 with _id := JsVal.str "s1", deleted := JsVal.bool true,
                edited := JsVal.bool true, isNew := JsVal.bool true }

/-- Descriptor deleting the nonexistent sensor `ghost`. -/
def dDelGhost : SensorDescriptor :=
  { descr0 with _id := JsVal.str "ghost", deleted := JsVal.str "true" }

/-- Descriptor with none of the intent flags set (classification Reject). -/
def dInvalid : SensorDescriptor :=
  { descr0 with _id := JsVal.str "s2", title := JsVal.str "Humidity" }

/-- Create-classified descriptor whose mandatory `title` is absent. -/
def dNoTitle : SensorDescriptor :=
  { descr0 with _id := JsVal.str "sX", unit := JsVal.str "C",
                sensorType := JsVal.str "HDC1080",
                edited := JsVal.bool true, isNew := JsVal.bool true }

/-- Body carrying only a batch that deletes the nonexistent sensor `ghost`. -/
def bodyDelGhost : ReqBody := { reqBody0 with sensors := some [dDelGhost] }

/-- Body with an empty field map and an empty sensor batch. -/
def bodyEmptyBatch : ReqBody := { reqBody0 with sensors := some [] }

/-- Body whose batch fails at its second descriptor: a valid delete, then a
flagless descriptor, then another delete that is never reached. -/
def bodyFailingBatch : ReqBody :=
  { reqBody0 with name := JsVal.str "New Name",
                  sensors := some [dDelS1, dInvalid, dDelGhost] }

/-- Two concrete sensor definitions for a creation request. -/
def sensorDefN1 : NewSensorDef :=
  ⟨JsVal.str "n1", JsVal.str "Temp", JsVal.str "C", JsVal.str "HDC1080"⟩

/-- Second concrete sensor definition for a creation request. -/
def sensorDefN2 : NewSensorDef :=
  ⟨JsVal.str "n2", JsVal.str "Hum", JsVal.str "%", JsVal.str "HDC1080"⟩

/-- A creation-request body with two sensor definitions. -/
def newBoxBody2 : NewBoxBody :=
  { name := JsVal.str "My Box", description := JsVal.undef,
    exposure := JsVal.str "indoor", useAuth := JsVal.undef,
    model := JsVal.str "homeWifi", public := JsVal.undef,
    status := JsVal.undef, lat := JsVal.num 51, lng := JsVal.num 7,
    sensors := some [sensorDefN1, sensorDefN2] }

/-! Helper lemmas about statement execution and the two loops. -/

theorem execDml_updateDevice (i : String) (sets : List (String × JsVal)) (st : Store) :
    execDml (.updateDevice i sets) st = .ok (afterDeviceUpdate i sets st) := rfl

theorem execDml_insertSensor_ok (row : Row) (st st1 : Store)
    (h : execDml (.insertSensor row) st = .ok st1) :
    st1 = { st with sensors := st.sensors ++ [row] } := by
  simp only [execDml] at h
  split at h
  · exact absurd h (by simp)
  · simpa using h.symm

theorem execDml_insertDevice_ok (row : Row) (st st1 : Store)
    (h : execDml (.insertDevice row) st = .ok st1) :
    st1 = { st with devices := st.devices ++ [row] } := by
  simp only [execDml] at h
  split at h
  · exact absurd h (by simp)
  · simpa using h.symm

theorem getLast_append_single {α : Type} (l : List α) (a : α) :
    (l ++ [a]).getLast? = some a := by
  induction l with
  | nil => rfl
  | cons b t ih => rw [List.cons_append, List.getLast?_cons, ih]; rfl

theorem getLast_cons_append_single {α : Type} (a b : α) (l : List α) :
    (a :: (l ++ [b])).getLast? = some b := by
  have h : a :: (l ++ [b]) = (a :: l) ++ [b] := by simp
  rw [h, getLast_append_single]

theorem updateSensorGo_stops_at_failure (boxId now : String) (ds : List SensorDescriptor) :
    ∀ (st : Store) (e : EngErr), (updateSensorGo boxId now ds st).2 = .error e →
      ∃ k, k < ds.length ∧
        (updateSensorGo boxId now ds st).1 = (updateSensorGo boxId now (ds.take k) st).1 ∧
        ∃ st1, (updateSensorGo boxId now (ds.take k) st).2 = .ok st1 := by
  induction ds with
  | nil => intro st e h; simp [updateSensorGo] at h
  | cons d ds ih =>
    intro st e h
    cases hs : sensorStmt boxId now d with
    | error e2 =>
      exact ⟨0, by simp, by simp [updateSensorGo, hs], st, by simp [updateSensorGo]⟩
    | ok stmt =>
      cases he : execDml stmt st with
      | error e2 =>
        exact ⟨0, by simp, by simp [updateSensorGo, hs, he], st, by simp [updateSensorGo]⟩
      | ok st1 =>
        have h2 : (updateSensorGo boxId now ds st1).2 = .error e := by
          simpa [updateSensorGo, hs, he] using h
        obtain ⟨k, hk, h1, st2, hok⟩ := ih st1 e h2
        exact ⟨k + 1, by simpa using Nat.succ_lt_succ hk,
          by simp [updateSensorGo, hs, he, h1],
          st2, by simp [updateSensorGo, hs, he, hok]⟩

theorem updateSensorGo_append (boxId now : String) (pre rest : List SensorDescriptor) :
    ∀ (st st1 : Store), (updateSensorGo boxId now pre st).2 = .ok st1 →
      updateSensorGo boxId now (pre ++ rest) st =
        ((updateSensorGo boxId now pre st).1 ++ (updateSensorGo boxId now rest st1).1,
         (updateSensorGo boxId now rest st1).2) := by
  induction pre with
  | nil =>
    intro st st1 h
    simp only [updateSensorGo] at h
    cases h
    simp [updateSensorGo]
  | cons d pre ih =>
    intro st st1 h
    cases hs : sensorStmt boxId now d with
    | error e2 => simp [updateSensorGo, hs] at h
    | ok stmt =>
      cases he : execDml stmt st with
      | error e2 => simp [updateSensorGo, hs, he] at h
      | ok st2 =>
        have h2 : (updateSensorGo boxId now pre st2).2 = .ok st1 := by
          simpa [updateSensorGo, hs, he] using h
        simp [updateSensorGo, hs, he, ih st2 st1 h2]

theorem insertSensorsGo_ok (deviceId now : String) (ds : List NewSensorDef) :
    ∀ (st st1 : Store), (insertSensorsGo deviceId now ds st).2 = .ok st1 →
      st1.devices = st.devices ∧
      st1.sensors = st.sensors ++ ds.map (fun dn => newSensorInsertRow dn deviceId now) := by
  induction ds with
  | nil =>
    intro st st1 h
    simp only [insertSensorsGo] at h
    cases h
    simp
  | cons dn ds ih =>
    intro st st1 h
    cases he : execDml (Stmt.insertSensor (newSensorInsertRow dn deviceId now)) st with
    | error e2 => simp [insertSensorsGo, he] at h
    | ok st2 =>
      have h2 : (insertSensorsGo deviceId now ds st2).2 = .ok st1 := by
        simpa [insertSensorsGo, he] using h
      obtain ⟨hd, hs⟩ := ih st2 st1 h2
      have hst2 := execDml_insertSensor_ok _ _ _ he
      subst hst2
      simp at hd hs
      exact ⟨hd, by simp [hs]⟩

theorem truthy_undef : JsVal.undef.truthy = false := rfl

theorem truthy_bool (b : Bool) : (JsVal.bool b).truthy = b := rfl

theorem str_truthy (s : String) (h : s ≠ "") : (JsVal.str s).truthy = true := by
  simp only [JsVal.truthy, Bool.not_eq_true']
  cases hn : s.isEmpty
  · rfl
  · exact absurd ((String.isEmpty_iff s).mp hn) h

/-- C3: a device field that is absent from the submitted map never appears
in the SET column list of the generated device UPDATE: every column of the
list stems from an entry of the field map whose candidate value is truthy,
hence present and not undefined. -/
theorem absent_field_never_in_set_list (body : ReqBody) (now : String) (k : String)
    (hk : k ∈ (deviceSetFragments body now).map Prod.fst) :
    ∃ v, (k, v) ∈ updatedDeviceFields body now ∧ v.truthy = true ∧ v ≠ JsVal.undef := by
  rcases List.mem_map.mp hk with ⟨kv, hmem, hfst⟩
  rcases List.mem_filter.mp hmem with ⟨hl, hp⟩
  subst hfst
  refine ⟨kv.2, by simpa using hl, by simpa using hp, ?_⟩
  intro hu
  simp [hu, JsVal.truthy] at hp

/-- Witness for C3 at a concrete request body and column. -/
theorem absent_field_never_in_set_list_witness :
    ∃ v, ("useAuth", v) ∈ updatedDeviceFields bodyEmptyBatch "t0" ∧
      v.truthy = true ∧ v ≠ JsVal.undef :=
  absent_field_never_in_set_list bodyEmptyBatch "t0" "useAuth" (by decide)

/-- C9: the SET list of the generated device UPDATE always contains
useAuth = true, public = true and the freshly generated updatedAt timestamp,
whatever fields the caller submitted. -/
theorem forced_columns_always_set (body : ReqBody) (now : String) (hnow : now ≠ "") :
    ("useAuth", JsVal.bool true) ∈ deviceSetFragments body now ∧
    ("public", JsVal.bool true) ∈ deviceSetFragments body now ∧
    ("updatedAt", JsVal.str now) ∈ deviceSetFragments body now := by
  refine ⟨List.mem_filter.mpr ⟨by simp [updatedDeviceFields], by simp [JsVal.truthy]⟩,
          List.mem_filter.mpr ⟨by simp [updatedDeviceFields], by simp [JsVal.truthy]⟩,
          List.mem_filter.mpr ⟨by simp [updatedDeviceFields], ?_⟩⟩
  simpa using str_truthy now hnow

/-- Witness for C9 at a concrete request body and timestamp. -/
theorem forced_columns_always_set_witness :
    ("useAuth", JsVal.bool true) ∈ deviceSetFragments reqBody0 "t0" ∧
    ("public", JsVal.bool true) ∈ deviceSetFragments reqBody0 "t0" ∧
    ("updatedAt", JsVal.str "t0") ∈ deviceSetFragments reqBody0 "t0" :=
  forced_columns_always_set reqBody0 "t0" (by decide)

/-- C4: a descriptor whose deleted flag is truthy is classified Delete no
matter what edited and new are, and it contributes exactly one DELETE
statement to the executed batch. -/
theorem deleted_flag_selects_delete (boxId now : String) (d : SensorDescriptor)
    (hd : d.deleted.truthy = true) :
    sensorStmt boxId now d = .ok (.deleteSensor d._id) ∧
    ∀ (ds : List SensorDescriptor) (st : Store),
      (updateSensorGo boxId now (d :: ds) st).1 =
        Stmt.deleteSensor d._id ::
          (updateSensorGo boxId now ds
            { st with sensors :=
                st.sensors.filter (fun r => !(sqlMatches (getCol r "id") d._id)) }).1 := by
  have hs : sensorStmt boxId now d = .ok (.deleteSensor d._id) := by
    simp [sensorStmt, hd]
  exact ⟨hs, fun ds st => by simp [updateSensorGo, hs, execDml]⟩

/-- Witness for C4: a descriptor with all three flags truthy is still a
Delete and executes exactly the one DELETE. -/
theorem deleted_flag_selects_delete_witness :
    sensorStmt "box-1" "t0" dDelS1 = .ok (.deleteSensor (JsVal.str "s1")) ∧
    (updateSensorGo "box-1" "t0" [dDelS1] store0).1 =
      [Stmt.deleteSensor (JsVal.str "s1")] := by
  have h := deleted_flag_selects_delete "box-1" "t0" dDelS1 (by decide)
  exact ⟨h.1, by rw [h.2 [] store0]; rfl⟩

/-- C10: an update request without a sensors key always fails (the
reconciler iterates an undefined value), the transaction is rolled back, and
the store collaborator afterwards equals the one before; only the BEGIN, the
device UPDATE and the ROLLBACK are ever executed. -/
theorem missing_sensors_key_rolls_back (boxId now : String) (body : ReqBody) (db : DB)
    (hidle : db.current = db.committed) (hsens : body.sensors = none) :
    (updateBox boxId body now db).2.2 = .error .notIterable ∧
    (updateBox boxId body now db).2.1 = db ∧
    (updateBox boxId body now db).1 =
      [Stmt.beginTx, Stmt.updateDevice boxId (deviceSetFragments body now),
       Stmt.rollbackTx] := by
  obtain ⟨cSt, cur⟩ := db
  simp only at hidle
  subst hidle
  refine ⟨?_, ?_, ?_⟩ <;>
    simp [updateBox, updateSensor, hsens, execDml_updateDevice]

/-- Witness for C10 at a concrete body without a sensors key. -/
theorem missing_sensors_key_rolls_back_witness :
    (updateBox "box-1" reqBody0 "t0" db0).2.2 = .error .notIterable ∧
    (updateBox "box-1" reqBody0 "t0" db0).2.1 = db0 ∧
    (updateBox "box-1" reqBody0 "t0" db0).1 =
      [Stmt.beginTx, Stmt.updateDevice "box-1" (deviceSetFragments reqBody0 "t0"),
       Stmt.rollbackTx] :=
  missing_sensors_key_rolls_back "box-1" "t0" reqBody0 db0 rfl rfl

theorem idle_db_eta (db : DB) (h : db.current = db.committed) :
    DB.mk db.committed db.committed = db := by
  cases db
  simp only at h
  subst h
  rfl

/-- C5: a descriptor with neither deleted nor edited truthy (none of the
three intent flags set, or an unrecognized combination such as new without
edited) is classified Reject: the raised error carries the descriptor id
and renders the `Invalid operation for sensor with id` message, no
statement is executed for the offending descriptor or for any later one
(the trace only holds the statements of the preceding descriptors plus the
ROLLBACK), the whole request errors, and the rollback leaves the store
collaborator exactly as before the request. -/
theorem flagless_descriptor_rejected (boxId now : String) (body : ReqBody) (db : DB)
    (d : SensorDescriptor) (pre post : List SensorDescriptor) (st1 : Store)
    (hdel : d.deleted.truthy = false) (hed : d.edited.truthy = false)
    (hidle : db.current = db.committed)
    (hsens : body.sensors = some (pre ++ d :: post))
    (hpre : (updateSensorGo boxId now pre
        (afterDeviceUpdate boxId (deviceSetFragments body now) db.committed)).2 = .ok st1) :
    sensorStmt boxId now d = .error (.invalidOp d._id) ∧
    (EngErr.invalidOp d._id).message =
      "Invalid operation for sensor with id " ++ renderVal d._id ∧
    (updateBox boxId body now db).2.2 = .error (.invalidOp d._id) ∧
    (updateBox boxId body now db).1 =
      [Stmt.beginTx, Stmt.updateDevice boxId (deviceSetFragments body now)] ++
        (updateSensorGo boxId now pre
          (afterDeviceUpdate boxId (deviceSetFragments body now) db.committed)).1 ++
        [Stmt.rollbackTx] ∧
    (updateBox boxId body now db).2.1 = db := by
  have hs : sensorStmt boxId now d = .error (.invalidOp d._id) := by
    simp [sensorStmt, hdel, hed]
  have hgo : updateSensorGo boxId now (pre ++ d :: post)
      (afterDeviceUpdate boxId (deviceSetFragments body now) db.committed) =
      ((updateSensorGo boxId now pre
         (afterDeviceUpdate boxId (deviceSetFragments body now) db.committed)).1,
       .error (.invalidOp d._id)) := by
    rw [updateSensorGo_append boxId now pre (d :: post) _ st1 hpre]
    simp [updateSensorGo, hs]
  refine ⟨hs, rfl, ?_, ?_, ?_⟩ <;>
    simp [updateBox, updateSensor, hsens, execDml_updateDevice, hgo, idle_db_eta db hidle]

/-- Witness for C5 at a concrete flagless descriptor placed first. -/
theorem flagless_descriptor_rejected_witness :
    sensorStmt "box-1" "t0" dInvalid = .error (.invalidOp (JsVal.str "s2")) ∧
    (EngErr.invalidOp (JsVal.str "s2")).message =
      "Invalid operation for sensor with id " ++ renderVal (JsVal.str "s2") ∧
    (updateBox "box-1" { reqBody0 with sensors := some [dInvalid] } "t0" db0).2.2 =
      .error (.invalidOp (JsVal.str "s2")) ∧
    (updateBox "box-1" { reqBody0 with sensors := some [dInvalid] } "t0" db0).1 =
      [Stmt.beginTx,
       Stmt.updateDevice "box-1"
         (deviceSetFragments { reqBody0 with sensors := some [dInvalid] } "t0")] ++
        (updateSensorGo "box-1" "t0" []
          (afterDeviceUpdate "box-1"
            (deviceSetFragments { reqBody0 with sensors := some [dInvalid] } "t0")
            db0.committed)).1 ++
        [Stmt.rollbackTx] ∧
    (updateBox "box-1" { reqBody0 with sensors := some [dInvalid] } "t0" db0).2.1 = db0 :=
  flagless_descriptor_rejected "box-1" "t0" { reqBody0 with sensors := some [dInvalid] }
    db0 dInvalid [] [] _ (by decide) (by decide) rfl rfl rfl

/-- C1: when the sensor batch of an update request fails at some descriptor,
the descriptors after it are never attempted (the executed statements are
exactly those of a successful strict prefix of the batch), an explicit
ROLLBACK is the last statement issued before the error propagates, and the
store collaborator afterwards equals the one before the request: neither
the device-field UPDATE nor the earlier sensor operations persist. -/
theorem updateBox_failed_batch_rolls_back (boxId now : String) (body : ReqBody) (db : DB)
    (ds : List SensorDescriptor) (e : EngErr)
    (hidle : db.current = db.committed) (hsens : body.sensors = some ds)
    (herr : (updateBox boxId body now db).2.2 = .error e) :
    (updateBox boxId body now db).2.1 = db ∧
    (updateBox boxId body now db).1.getLast? = some Stmt.rollbackTx ∧
    ∃ k, k < ds.length ∧
      (∃ stk, (updateSensorGo boxId now (ds.take k)
          (afterDeviceUpdate boxId (deviceSetFragments body now) db.committed)).2 =
        .ok stk) ∧
      (updateBox boxId body now db).1 =
        [Stmt.beginTx, Stmt.updateDevice boxId (deviceSetFragments body now)] ++
          (updateSensorGo boxId now (ds.take k)
            (afterDeviceUpdate boxId (deviceSetFragments body now) db.committed)).1 ++
          [Stmt.rollbackTx] := by
  rcases hgo : updateSensorGo boxId now ds
      (afterDeviceUpdate boxId (deviceSetFragments body now) db.committed) with ⟨slog, res⟩
  cases res with
  | ok st2 =>
    exfalso
    simp [updateBox, updateSensor, hsens, execDml_updateDevice, hgo] at herr
  | error e2 =>
    have h2 : (updateSensorGo boxId now ds
        (afterDeviceUpdate boxId (deviceSetFragments body now) db.committed)).2 =
        .error e2 := by
      rw [hgo]
    obtain ⟨k, hk, h1, stk, hok⟩ :=
      updateSensorGo_stops_at_failure boxId now ds _ e2 h2
    have hslog : slog = (updateSensorGo boxId now (ds.take k)
        (afterDeviceUpdate boxId (deviceSetFragments body now) db.committed)).1 := by
      rw [← h1, hgo]
    refine ⟨?_, ?_, k, hk, ⟨stk, hok⟩, ?_⟩ <;>
      simp [updateBox, updateSensor, hsens, execDml_updateDevice, hgo, hslog,
        getLast_append_single, getLast_cons_append_single, idle_db_eta db hidle]

/-- Witness for C1: a batch failing at its second descriptor; the executed
sensor statements are those of the one-descriptor successful prefix. -/
theorem updateBox_failed_batch_rolls_back_witness :
    (updateBox "box-1" bodyFailingBatch "t0" db0).2.1 = db0 ∧
    (updateBox "box-1" bodyFailingBatch "t0" db0).1.getLast? = some Stmt.rollbackTx ∧
    ∃ k, k < ([dDelS1, dInvalid, dDelGhost] : List SensorDescriptor).length ∧
      (∃ stk, (updateSensorGo "box-1" "t0" ([dDelS1, dInvalid, dDelGhost].take k)
          (afterDeviceUpdate "box-1" (deviceSetFragments bodyFailingBatch "t0")
            db0.committed)).2 = .ok stk) ∧
      (updateBox "box-1" bodyFailingBatch "t0" db0).1 =
        [Stmt.beginTx,
         Stmt.updateDevice "box-1" (deviceSetFragments bodyFailingBatch "t0")] ++
          (updateSensorGo "box-1" "t0" ([dDelS1, dInvalid, dDelGhost].take k)
            (afterDeviceUpdate "box-1" (deviceSetFragments bodyFailingBatch "t0")
              db0.committed)).1 ++
          [Stmt.rollbackTx] :=
  updateBox_failed_batch_rolls_back "box-1" "t0" bodyFailingBatch db0
    [dDelS1, dInvalid, dDelGhost] (.invalidOp (JsVal.str "s2")) rfl rfl (by rfl)

/-- C2 counterexample: deleting the nonexistent sensor `ghost` makes the
whole request succeed and COMMIT (no NotFound error, no rollback), and an
update addressed to the nonexistent device `ghost-box` also succeeds. -/
theorem zero_row_match_silently_commits_cex :
    (updateBox "box-1" bodyDelGhost "t0" db0).2.2 = .ok () ∧
    Stmt.rollbackTx ∉ (updateBox "box-1" bodyDelGhost "t0" db0).1 ∧
    Stmt.commitTx ∈ (updateBox "box-1" bodyDelGhost "t0" db0).1 ∧
    (updateBox "ghost-box" bodyEmptyBatch "t0" db0).2.2 = .ok () := by
  refine ⟨rfl, by decide, by decide, rfl⟩

/-- C2 amended: a sensor delete matching no Sensor row, inside an update
addressed to a device identifier matching no Device row, silently succeeds
as a zero-row no-op: the request commits, no rollback happens, the store is
unchanged, and no NotFound error is raised (the engine never inspects the
affected-row count). -/
theorem zero_row_match_noop_succeeds (boxId now : String) (body : ReqBody) (db : DB)
    (d : SensorDescriptor)
    (hidle : db.current = db.committed)
    (hsens : body.sensors = some [d])
    (hdel : d.deleted.truthy = true)
    (hnosensor : ∀ r ∈ db.committed.sensors, sqlMatches (getCol r "id") d._id = false)
    (hnodevice : ∀ r ∈ db.committed.devices,
      (getCol r "id" == JsVal.str boxId) = false) :
    (updateBox boxId body now db).2.2 = .ok () ∧
    (updateBox boxId body now db).2.1 = db ∧
    Stmt.commitTx ∈ (updateBox boxId body now db).1 ∧
    Stmt.rollbackTx ∉ (updateBox boxId body now db).1 := by
  have hdev : afterDeviceUpdate boxId (deviceSetFragments body now) db.committed =
      db.committed := by
    unfold afterDeviceUpdate
    have h1 : ∀ r ∈ db.committed.devices,
        (fun r => if getCol r "id" == JsVal.str boxId then
          applySets r (deviceSetFragments body now) else r) r = (fun r => r) r :=
      fun r hr => by simp [hnodevice r hr]
    rw [List.map_congr_left h1, List.map_id']
  have hdelete : execDml (Stmt.deleteSensor d._id) db.committed = .ok db.committed := by
    simp only [execDml]
    have h2 : ∀ r ∈ db.committed.sensors,
        (!(sqlMatches (getCol r "id") d._id)) = true :=
      fun r hr => by simp [hnosensor r hr]
    rw [List.filter_eq_self.mpr h2]
  have hs : sensorStmt boxId now d = .ok (.deleteSensor d._id) := by
    simp [sensorStmt, hdel]
  have hstep : updateSensorGo boxId now [d] db.committed =
      ([Stmt.deleteSensor d._id], .ok db.committed) := by
    simp [updateSensorGo, hs, hdelete]
  refine ⟨?_, ?_, ?_, ?_⟩ <;>
    simp [updateBox, updateSensor, hsens, execDml_updateDevice, hdev, hstep,
      idle_db_eta db hidle]

/-- Witness for the amended C2 at a concrete store where neither the device
nor the deleted sensor identifier matches any row. -/
theorem zero_row_match_noop_succeeds_witness :
    (updateBox "ghost-box" bodyDelGhost "t0" db0).2.2 = .ok () ∧
    (updateBox "ghost-box" bodyDelGhost "t0" db0).2.1 = db0 ∧
    Stmt.commitTx ∈ (updateBox "ghost-box" bodyDelGhost "t0" db0).1 ∧
    Stmt.rollbackTx ∉ (updateBox "ghost-box" bodyDelGhost "t0" db0).1 :=
  zero_row_match_noop_succeeds "ghost-box" "t0" bodyDelGhost db0 dDelGhost
    rfl rfl (by decide) (by decide) (by decide)

/-- C6 counterexample: a Create-classified descriptor missing the mandatory
title is not rejected: the INSERT statement is produced and executed, with
the absent title bound as undefined. -/
theorem create_missing_title_insert_executes_cex :
    sensorStmt "box-1" "t0" dNoTitle =
      .ok (.insertSensor (newSensorRow "box-1" "t0" dNoTitle)) ∧
    getCol (newSensorRow "box-1" "t0" dNoTitle) "title" = JsVal.undef ∧
    (updateSensorGo "box-1" "t0" [dNoTitle] store0).1 =
      [Stmt.insertSensor (newSensorRow "box-1" "t0" dNoTitle)] ∧
    (updateSensorGo "box-1" "t0" [dNoTitle] store0).2 =
      .ok { store0 with sensors := store0.sensors ++ [newSensorRow "box-1" "t0" dNoTitle] } :=
  ⟨rfl, rfl, rfl, rfl⟩

/-- C6 amended: the Create branch performs no mandatory-field validation at
all: whenever deleted is falsy and edited and new are truthy, the INSERT is
produced with the raw title, unit and sensorType values bound, present or
absent alike. -/
theorem create_branch_no_validation (boxId now : String) (d : SensorDescriptor)
    (hdel : d.deleted.truthy = false) (hed : d.edited.truthy = true)
    (hnew : d.isNew.truthy = true) :
    sensorStmt boxId now d = .ok (.insertSensor (newSensorRow boxId now d)) := by
  simp [sensorStmt, hdel, hed, hnew]

/-- Witness for the amended C6 at the concrete descriptor missing title. -/
theorem create_branch_no_validation_witness :
    sensorStmt "box-1" "t0" dNoTitle =
      .ok (.insertSensor (newSensorRow "box-1" "t0" dNoTitle)) :=
  create_branch_no_validation "box-1" "t0" dNoTitle (by decide) (by decide) (by decide)

/-- C7 counterexample: with an empty device-field map and an empty sensor
batch the request succeeds but is not write-free: the SET list still holds
updatedAt, useAuth and public, the device UPDATE is issued, and the
committed store is changed by it. -/
theorem empty_request_still_writes_cex :
    deviceSetFragments bodyEmptyBatch "t0" =
      [("updatedAt", JsVal.str "t0"), ("useAuth", JsVal.bool true),
       ("public", JsVal.bool true)] ∧
    (updateBox "box-1" bodyEmptyBatch "t0" db0).1 =
      [Stmt.beginTx,
       Stmt.updateDevice "box-1" (deviceSetFragments bodyEmptyBatch "t0"),
       Stmt.commitTx] ∧
    (updateBox "box-1" bodyEmptyBatch "t0" db0).2.2 = .ok () ∧
    (updateBox "box-1" bodyEmptyBatch "t0" db0).2.1 ≠ db0 := by
  refine ⟨rfl, rfl, rfl, by decide⟩

/-- C7 amended: an update with an empty field map and an empty sensor batch
succeeds, but the Builder never signals empty and the caller never skips
the device-row write: the device UPDATE is always issued, with SET list
exactly updatedAt, useAuth, public. -/
theorem empty_request_update_always_issued (boxId now : String) (body : ReqBody)
    (db : DB)
    (hname : body.name = JsVal.undef) (hdesc : body.description = JsVal.undef)
    (hexp : body.exposure = JsVal.undef) (hmod : body.model = JsVal.undef)
    (hstat : body.status = JsVal.undef) (hloc : body.location = none)
    (huid : body.user_id = JsVal.undef) (hsens : body.sensors = some [])
    (hnow : now ≠ "") :
    deviceSetFragments body now =
      [("updatedAt", JsVal.str now), ("useAuth", JsVal.bool true),
       ("public", JsVal.bool true)] ∧
    (updateBox boxId body now db).2.2 = .ok () ∧
    (updateBox boxId body now db).1 =
      [Stmt.beginTx, Stmt.updateDevice boxId (deviceSetFragments body now),
       Stmt.commitTx] := by
  have hfrag : deviceSetFragments body now =
      [("updatedAt", JsVal.str now), ("useAuth", JsVal.bool true),
       ("public", JsVal.bool true)] := by
    simp [deviceSetFragments, updatedDeviceFields, hname, hdesc, hexp, hmod, hstat,
      hloc, huid, truthy_undef, truthy_bool, str_truthy now hnow]
  refine ⟨hfrag, ?_, ?_⟩ <;>
    simp [updateBox, updateSensor, updateSensorGo, hsens, execDml_updateDevice]

/-- Witness for the amended C7 at a concrete empty request. -/
theorem empty_request_update_always_issued_witness :
    deviceSetFragments bodyEmptyBatch "t0" =
      [("updatedAt", JsVal.str "t0"), ("useAuth", JsVal.bool true),
       ("public", JsVal.bool true)] ∧
    (updateBox "box-9" bodyEmptyBatch "t0" db0).2.2 = .ok () ∧
    (updateBox "box-9" bodyEmptyBatch "t0" db0).1 =
      [Stmt.beginTx, Stmt.updateDevice "box-9" (deviceSetFragments bodyEmptyBatch "t0"),
       Stmt.commitTx] :=
  empty_request_update_always_issued "box-9" "t0" bodyEmptyBatch db0
    rfl rfl rfl rfl rfl rfl rfl rfl (by decide)

/-- C8: with a batch of K sensor definitions, a successful creation appends
exactly one Device row and exactly the K Sensor rows (each referencing the
new device identifier) to the committed store and returns the new device
identifier; any failure rolls back, leaving the store collaborator exactly
as before. -/
theorem postNewBox_rows_effect (body : NewBoxBody) (newId userId now : String)
    (db : DB) (ds : List NewSensorDef)
    (hidle : db.current = db.committed)
    (hsens : body.sensors = some ds) :
    (∀ r, (postNewBox body newId userId now db).2.2 = .ok r →
      r = newId ∧
      (postNewBox body newId userId now db).2.1.committed.devices =
        db.committed.devices ++ [newDeviceRow body newId userId now] ∧
      (postNewBox body newId userId now db).2.1.committed.sensors =
        db.committed.sensors ++ ds.map (fun dn => newSensorInsertRow dn newId now) ∧
      ∀ row ∈ ds.map (fun dn => newSensorInsertRow dn newId now),
        getCol row "deviceId" = JsVal.str newId) ∧
    (∀ e, (postNewBox body newId userId now db).2.2 = .error e →
      (postNewBox body newId userId now db).2.1 = db ∧
      (postNewBox body newId userId now db).1.getLast? = some Stmt.rollbackTx) := by
  cases hdev : execDml (.insertDevice (newDeviceRow body newId userId now))
      db.committed with
  | error e0 =>
    constructor
    · intro r hr
      exfalso
      simp [postNewBox, hdev] at hr
    · intro e he
      refine ⟨?_, ?_⟩ <;> simp [postNewBox, hdev, idle_db_eta db hidle]
  | ok st1 =>
    have hst1 : st1 = { db.committed with
        devices := db.committed.devices ++ [newDeviceRow body newId userId now] } :=
      execDml_insertDevice_ok _ _ _ hdev
    rcases hgo : insertSensorsGo newId now ds st1 with ⟨slog, res⟩
    cases res with
    | error e0 =>
      constructor
      · intro r hr
        exfalso
        simp [postNewBox, hdev, hsens, hgo] at hr
      · intro e he
        refine ⟨?_, ?_⟩ <;>
          simp [postNewBox, hdev, hsens, hgo, idle_db_eta db hidle,
            getLast_cons_append_single]
    | ok cur2 =>
      have heff := insertSensorsGo_ok newId now ds st1 cur2 (by rw [hgo])
      constructor
      · intro r hr
        have hrr : r = newId := by
          simp [postNewBox, hdev, hsens, hgo] at hr
          exact hr.symm
        refine ⟨hrr, ?_, ?_, ?_⟩
        · have : (postNewBox body newId userId now db).2.1.committed = cur2 := by
            simp [postNewBox, hdev, hsens, hgo]
          rw [this, heff.1, hst1]
        · have : (postNewBox body newId userId now db).2.1.committed = cur2 := by
            simp [postNewBox, hdev, hsens, hgo]
          rw [this, heff.2, hst1]
        · intro row hrow
          rcases List.mem_map.mp hrow with ⟨dn, -, hdn⟩
          rw [← hdn]
          rfl
      · intro e he
        exfalso
        simp [postNewBox, hdev, hsens, hgo] at he

/-- Witness for C8: the successful creation of a device with two sensors
from the empty store. -/
theorem postNewBox_rows_effect_witness :
    ("nid" : String) = "nid" ∧
    (postNewBox newBoxBody2 "nid" "uid" "t0" dbEmpty).2.1.committed.devices =
      dbEmpty.committed.devices ++ [newDeviceRow newBoxBody2 "nid" "uid" "t0"] ∧
    (postNewBox newBoxBody2 "nid" "uid" "t0" dbEmpty).2.1.committed.sensors =
      dbEmpty.committed.sensors ++
        ([sensorDefN1, sensorDefN2].map (fun dn => newSensorInsertRow dn "nid" "t0")) ∧
    ∀ row ∈ [sensorDefN1, sensorDefN2].map (fun dn => newSensorInsertRow dn "nid" "t0"),
      getCol row "deviceId" = JsVal.str "nid" :=
  (postNewBox_rows_effect newBoxBody2 "nid" "uid" "t0" dbEmpty
    [sensorDefN1, sensorDefN2] rfl rfl).1 "nid" rfl
